import Mathlib

/-!
Shallow embedding of the JTAG multiplexer line-arbitration controller
(`src/sw/jtag-switch/src/gpio/gpio_control.c`).

The C module keeps three static variables (`select0_state`, `select1_state`,
`initialized`) and drives two physical GPIO lines through the Zephyr calls
`gpio_is_ready_dt`, `gpio_pin_configure_dt`, `gpio_pin_set_dt` and
`gpio_pin_get_dt`.  We embed the module state as a record that also carries a
simulated physical level for each pin, a trace of every hardware call issued,
and a counter indexing into a fault-injection oracle.  Each hardware call
consumes one oracle entry:

* `HwRes.ok`    — the call succeeds; a write/configure drives the pin, a read
                  returns the actual pin level;
* `HwRes.err n` — the call fails, returning the negative errno `Int.negSucc n`;
* `HwRes.bad b` — a silent hardware fault: a write/configure reports success
                  (returns 0) without driving the pin; a read reports success
                  but returns level `b` regardless of the actual pin.

Errno values used by the C code: `-EINVAL = -22`, `-EIO = -5`, `-ENODEV = -19`.
Verification is modelled from the non-`CONFIG_GPIO_EMUL` branch of
`verify_gpio_state` (the branch that really reads the pin back).
-/

/-- Outcome of one hardware call, chosen by the fault-injection oracle. -/
inductive HwRes where
  | ok : HwRes
  | err : Nat → HwRes
  | bad : Bool → HwRes
deriving DecidableEq, Repr

/-- The fault-injection oracle: the result of the n-th hardware call. -/
abbrev Env := Nat → HwRes

/-- One observable hardware operation, recorded in the trace. -/
inductive HwOp where
  | ready : Nat → HwOp
  | configure : Nat → Bool → HwOp
  | write : Nat → Bool → HwOp
  | read : Nat → HwOp
deriving DecidableEq, Repr

/-- Module state: the three C statics, the simulated physical pin levels,
the trace of hardware calls issued so far, and the oracle index. -/
structure GpioState where
  select0_state : Bool
  select1_state : Bool
  initialized : Bool
  pin0 : Bool
  pin1 : Bool
  trace : List HwOp
  idx : Nat
deriving DecidableEq, Repr

/-- Physical level of a pin. -/
def pinOf (line : Nat) (s : GpioState) : Bool :=
  if line = 0 then s.pin0 else s.pin1

/-- Drive a pin to a level (effect of a successful write/configure). -/
def setPin (line : Nat) (level : Bool) (s : GpioState) : GpioState :=
  if line = 0 then { s with pin0 := level } else { s with pin1 := level }

/-- Tracked state of a line (`select0_state` / `select1_state`). -/
def trackedOf (line : Nat) (s : GpioState) : Bool :=
  if line = 0 then s.select0_state else s.select1_state

/-- Update the tracked state of a line. -/
def setTracked (line : Nat) (b : Bool) (s : GpioState) : GpioState :=
  if line = 0 then { s with select0_state := b } else { s with select1_state := b }

/-- Zephyr `gpio_is_ready_dt`, oracle-driven. -/
def gpio_is_ready_dt (env : Env) (line : Nat) (s : GpioState) : Bool × GpioState :=
  let s1 := { s with idx := s.idx + 1, trace := s.trace ++ [HwOp.ready line] }
  match env s.idx with
  | HwRes.err _ => (false, s1)
  | _ => (true, s1)

/-- Zephyr `gpio_pin_configure_dt` with `GPIO_OUTPUT_INACTIVE`: on success the
pin is configured as an output driven LOW. -/
def gpio_pin_configure_dt (env : Env) (line : Nat) (s : GpioState) : Int × GpioState :=
  let s1 := { s with idx := s.idx + 1, trace := s.trace ++ [HwOp.configure line false] }
  match env s.idx with
  | HwRes.err n => (Int.negSucc n, s1)
  | HwRes.ok => (0, setPin line false s1)
  | HwRes.bad _ => (0, s1)

/-- Zephyr `gpio_pin_set_dt`: 0 on success (pin driven), negative errno on
failure (pin unchanged); a `bad` fault reports success without driving. -/
def gpio_pin_set_dt (env : Env) (line : Nat) (level : Bool) (s : GpioState) : Int × GpioState :=
  let s1 := { s with idx := s.idx + 1, trace := s.trace ++ [HwOp.write line level] }
  match env s.idx with
  | HwRes.err n => (Int.negSucc n, s1)
  | HwRes.ok => (0, setPin line level s1)
  | HwRes.bad _ => (0, s1)

/-- Zephyr `gpio_pin_get_dt`: the level read (0/1) or a negative errno. -/
def gpio_pin_get_dt (env : Env) (line : Nat) (s : GpioState) : Int × GpioState :=
  let s1 := { s with idx := s.idx + 1, trace := s.trace ++ [HwOp.read line] }
  match env s.idx with
  | HwRes.err n => (Int.negSucc n, s1)
  | HwRes.ok => (if pinOf line s then 1 else 0, s1)
  | HwRes.bad b => (if b then 1 else 0, s1)

/-- `verify_gpio_state` (non-emulation branch): read the pin back and compare
with the expected level; `-EIO` on read failure or mismatch. -/
def verify_gpio_state (env : Env) (line : Nat) (expected : Bool) (s : GpioState) :
    Int × GpioState :=
  let g := gpio_pin_get_dt env line s
  if g.1 < 0 then (-5, g.2)
  else if g.1 ≠ (if expected then (1 : Int) else 0) then (-5, g.2)
  else (0, g.2)

/-- `gpio_control_init`: no-op if already initialized; otherwise readiness
checks, then configure-and-verify each line LOW; tracked state and the
`initialized` flag are set only on full success. -/
def gpio_control_init (env : Env) (s : GpioState) : Int × GpioState :=
  if s.initialized then (0, s)
  else
    let rd0 := gpio_is_ready_dt env 0 s
    if rd0.1 = false then (-19, rd0.2)
    else
      let rd1 := gpio_is_ready_dt env 1 rd0.2
      if rd1.1 = false then (-19, rd1.2)
      else
        let c0 := gpio_pin_configure_dt env 0 rd1.2
        if c0.1 < 0 then (c0.1, c0.2)
        else
          let v0 := verify_gpio_state env 0 false c0.2
          if v0.1 < 0 then (v0.1, v0.2)
          else
            let c1 := gpio_pin_configure_dt env 1 v0.2
            if c1.1 < 0 then (c1.1, c1.2)
            else
              let v1 := verify_gpio_state env 1 false c1.2
              if v1.1 < 0 then (v1.1, v1.2)
              else
                (0, { v1.2 with select0_state := false, select1_state := false,
                                initialized := true })

/-- Tail of `gpio_control_set_select` after the pre-emption step: write the
requested line, verify, and on failure roll the other line back when it was
cleared (tracked state is restored only when the rollback write returns 0). -/
def setTarget (env : Env) (line other : Nat) (state : Bool)
    (other_pin_cleared : Bool) (original_other_state : Bool) (s : GpioState) :
    Int × GpioState :=
  let w := gpio_pin_set_dt env line state s
  if w.1 < 0 then
    if other_pin_cleared then
      let rb := gpio_pin_set_dt env other original_other_state w.2
      if rb.1 = 0 then (w.1, setTracked other original_other_state rb.2)
      else (w.1, rb.2)
    else (w.1, w.2)
  else
    let v := verify_gpio_state env line state w.2
    if v.1 < 0 then
      if other_pin_cleared then
        let rb := gpio_pin_set_dt env other original_other_state v.2
        if rb.1 = 0 then (v.1, setTracked other original_other_state rb.2)
        else (v.1, rb.2)
      else (v.1, v.2)
    else (0, setTracked line state v.2)

/-- Body of `gpio_control_set_select` for a valid line: the pre-emption step
(clear-and-verify the other line when setting HIGH while it is HIGH), then
the target write. -/
def setBody (env : Env) (line other : Nat) (state : Bool) (s : GpioState) :
    Int × GpioState :=
  if state = true ∧ trackedOf other s = true then
    let original_other_state := trackedOf other s
    let w := gpio_pin_set_dt env other false s
    if w.1 < 0 then (w.1, w.2)
    else
      let v := verify_gpio_state env other false w.2
      if v.1 < 0 then (v.1, v.2)
      else setTarget env line other state true original_other_state
             (setTracked other false v.2)
  else setTarget env line other state false (trackedOf other s) s

/-- `gpio_control_set_select`: `-EINVAL` when not initialized or the line is
not 0/1; otherwise the pre-emption / write / verify / rollback sequence. -/
def gpio_control_set_select (env : Env) (select_line : Nat) (state : Bool)
    (s : GpioState) : Int × GpioState :=
  if s.initialized = false then (-22, s)
  else if select_line = 0 then setBody env 0 1 state s
  else if select_line = 1 then setBody env 1 0 state s
  else (-22, s)

/-- `gpio_control_get_select`: returns the tracked state through the output
pointer (modelled as the `Option Bool` component); `-EINVAL` when not
initialized, when the pointer is NULL, or when the line is not 0/1.  It
touches no hardware. -/
def gpio_control_get_select (select_line : Nat) (state_is_null : Bool)
    (s : GpioState) : Int × GpioState × Option Bool :=
  if s.initialized = false ∨ state_is_null = true then (-22, s, none)
  else if select_line = 0 then (0, s, some s.select0_state)
  else if select_line = 1 then (0, s, some s.select1_state)
  else (-22, s, none)

/-- `gpio_control_toggle_select`: read the tracked state, then set its
negation. -/
def gpio_control_toggle_select (env : Env) (select_line : Nat) (s : GpioState) :
    Int × GpioState :=
  let g := gpio_control_get_select select_line false s
  if g.1 < 0 then (g.1, g.2.1)
  else gpio_control_set_select env select_line (! g.2.2.getD false) g.2.1

/-- One external call into the controller. -/
inductive Op where
  | init : Op
  | set : Nat → Bool → Op
  | toggle : Nat → Op
deriving DecidableEq, Repr

/-- Execute one call (the returned code is discarded for trace purposes). -/
def runOp (env : Env) (s : GpioState) : Op → GpioState
  | Op.init => (gpio_control_init env s).2
  | Op.set line st => (gpio_control_set_select env line st s).2
  | Op.toggle line => (gpio_control_toggle_select env line s).2

/-- Execute a sequence of calls from a starting state. -/
def run (env : Env) (s : GpioState) : List Op → GpioState
  | [] => s
  | op :: ops => run env (runOp env s op) ops

/-- The process-start state: statics zero-initialized, pins LOW. -/
def initialState : GpioState :=
  { select0_state := false, select1_state := false, initialized := false,
    pin0 := false, pin1 := false, trace := [], idx := 0 }

/-- The fault-free oracle: every hardware call succeeds. -/
def okEnv : Env := fun _ => HwRes.ok

/-- Oracle given by a finite list of injected results, `ok` beyond its end. -/
def envOfList (l : List HwRes) : Env := fun i => l.getD i HwRes.ok

/-- A concrete initialized controller state with both lines LOW. -/
def readyState : GpioState :=
  { select0_state := false, select1_state := false, initialized := true,
    pin0 := false, pin1 := false, trace := [], idx := 0 }

/-- A concrete initialized state with line0 HIGH, line1 LOW (tracked and
physical). -/
def highLowState : GpioState :=
  { select0_state := true, select1_state := false, initialized := true,
    pin0 := true, pin1 := false, trace := [], idx := 0 }

/-- A concrete initialized state with line0 LOW, line1 HIGH (tracked and
physical). -/
def lowHighState : GpioState :=
  { select0_state := false, select1_state := true, initialized := true,
    pin0 := false, pin1 := true, trace := [], idx := 0 }

/-- Fault injection for the C1 counterexample: hardware call 11 — the readback
verification of the target write in the third operation — fails; every other
call succeeds. -/
def cexEnv : Env :=
  envOfList [HwRes.ok, HwRes.ok, HwRes.ok, HwRes.ok, HwRes.ok, HwRes.ok,
             HwRes.ok, HwRes.ok, HwRes.ok, HwRes.ok, HwRes.ok, HwRes.err 0]

/-- C4 witness helper oracle: the very first hardware call fails with
errno -4. -/
def failFirstEnv : Env := envOfList [HwRes.err 3]

/-! Preservation lemmas: the hardware primitives touch only pins, trace and
the oracle index, never the tracked state or the `initialized` flag. -/

@[simp]
lemma gpio_is_ready_dt_select0 (env : Env) (line : Nat) (s : GpioState) :
    ((gpio_is_ready_dt env line s).2).select0_state = s.select0_state := by
  unfold gpio_is_ready_dt; cases env s.idx <;> rfl

@[simp]
lemma gpio_is_ready_dt_select1 (env : Env) (line : Nat) (s : GpioState) :
    ((gpio_is_ready_dt env line s).2).select1_state = s.select1_state := by
  unfold gpio_is_ready_dt; cases env s.idx <;> rfl

@[simp]
lemma gpio_is_ready_dt_initialized (env : Env) (line : Nat) (s : GpioState) :
    ((gpio_is_ready_dt env line s).2).initialized = s.initialized := by
  unfold gpio_is_ready_dt; cases env s.idx <;> rfl

@[simp]
lemma gpio_pin_configure_dt_select0 (env : Env) (line : Nat) (s : GpioState) :
    ((gpio_pin_configure_dt env line s).2).select0_state = s.select0_state := by
  unfold gpio_pin_configure_dt setPin
  cases env s.idx <;> simp <;> split <;> rfl

@[simp]
lemma gpio_pin_configure_dt_select1 (env : Env) (line : Nat) (s : GpioState) :
    ((gpio_pin_configure_dt env line s).2).select1_state = s.select1_state := by
  unfold gpio_pin_configure_dt setPin
  cases env s.idx <;> simp <;> split <;> rfl

@[simp]
lemma gpio_pin_configure_dt_initialized (env : Env) (line : Nat) (s : GpioState) :
    ((gpio_pin_configure_dt env line s).2).initialized = s.initialized := by
  unfold gpio_pin_configure_dt setPin
  cases env s.idx <;> simp <;> split <;> rfl

@[simp]
lemma gpio_pin_set_dt_select0 (env : Env) (line : Nat) (level : Bool) (s : GpioState) :
    ((gpio_pin_set_dt env line level s).2).select0_state = s.select0_state := by
  unfold gpio_pin_set_dt setPin
  cases env s.idx <;> simp <;> split <;> rfl

@[simp]
lemma gpio_pin_set_dt_select1 (env : Env) (line : Nat) (level : Bool) (s : GpioState) :
    ((gpio_pin_set_dt env line level s).2).select1_state = s.select1_state := by
  unfold gpio_pin_set_dt setPin
  cases env s.idx <;> simp <;> split <;> rfl

@[simp]
lemma gpio_pin_set_dt_initialized (env : Env) (line : Nat) (level : Bool) (s : GpioState) :
    ((gpio_pin_set_dt env line level s).2).initialized = s.initialized := by
  unfold gpio_pin_set_dt setPin
  cases env s.idx <;> simp <;> split <;> rfl

@[simp]
lemma gpio_pin_get_dt_select0 (env : Env) (line : Nat) (s : GpioState) :
    ((gpio_pin_get_dt env line s).2).select0_state = s.select0_state := by
  unfold gpio_pin_get_dt; cases env s.idx <;> rfl

@[simp]
lemma gpio_pin_get_dt_select1 (env : Env) (line : Nat) (s : GpioState) :
    ((gpio_pin_get_dt env line s).2).select1_state = s.select1_state := by
  unfold gpio_pin_get_dt; cases env s.idx <;> rfl

@[simp]
lemma gpio_pin_get_dt_initialized (env : Env) (line : Nat) (s : GpioState) :
    ((gpio_pin_get_dt env line s).2).initialized = s.initialized := by
  unfold gpio_pin_get_dt; cases env s.idx <;> rfl

@[simp]
lemma gpio_pin_get_dt_pin0 (env : Env) (line : Nat) (s : GpioState) :
    ((gpio_pin_get_dt env line s).2).pin0 = s.pin0 := by
  unfold gpio_pin_get_dt; cases env s.idx <;> rfl

@[simp]
lemma gpio_pin_get_dt_pin1 (env : Env) (line : Nat) (s : GpioState) :
    ((gpio_pin_get_dt env line s).2).pin1 = s.pin1 := by
  unfold gpio_pin_get_dt; cases env s.idx <;> rfl

@[simp]
lemma verify_gpio_state_select0 (env : Env) (line : Nat) (e : Bool) (s : GpioState) :
    ((verify_gpio_state env line e s).2).select0_state = s.select0_state := by
  unfold verify_gpio_state
  rcases Int.lt_or_le (gpio_pin_get_dt env line s).1 0 with h | h
  · simp [h]
  · rw [if_neg (by omega)]
    split <;> split <;> simp

@[simp]
lemma verify_gpio_state_select1 (env : Env) (line : Nat) (e : Bool) (s : GpioState) :
    ((verify_gpio_state env line e s).2).select1_state = s.select1_state := by
  unfold verify_gpio_state
  rcases Int.lt_or_le (gpio_pin_get_dt env line s).1 0 with h | h
  · simp [h]
  · rw [if_neg (by omega)]
    split <;> split <;> simp

@[simp]
lemma verify_gpio_state_initialized (env : Env) (line : Nat) (e : Bool) (s : GpioState) :
    ((verify_gpio_state env line e s).2).initialized = s.initialized := by
  unfold verify_gpio_state
  rcases Int.lt_or_le (gpio_pin_get_dt env line s).1 0 with h | h
  · simp [h]
  · rw [if_neg (by omega)]
    split <;> split <;> simp

@[simp]
lemma verify_gpio_state_pin0 (env : Env) (line : Nat) (e : Bool) (s : GpioState) :
    ((verify_gpio_state env line e s).2).pin0 = s.pin0 := by
  unfold verify_gpio_state
  rcases Int.lt_or_le (gpio_pin_get_dt env line s).1 0 with h | h
  · simp [h]
  · rw [if_neg (by omega)]
    split <;> split <;> simp

@[simp]
lemma verify_gpio_state_pin1 (env : Env) (line : Nat) (e : Bool) (s : GpioState) :
    ((verify_gpio_state env line e s).2).pin1 = s.pin1 := by
  unfold verify_gpio_state
  rcases Int.lt_or_le (gpio_pin_get_dt env line s).1 0 with h | h
  · simp [h]
  · rw [if_neg (by omega)]
    split <;> split <;> simp

@[simp]
lemma gpio_pin_set_dt_pin1_of_line0 (env : Env) (level : Bool) (s : GpioState) :
    ((gpio_pin_set_dt env 0 level s).2).pin1 = s.pin1 := by
  unfold gpio_pin_set_dt setPin; cases env s.idx <;> rfl

@[simp]
lemma gpio_pin_set_dt_pin0_of_line1 (env : Env) (level : Bool) (s : GpioState) :
    ((gpio_pin_set_dt env 1 level s).2).pin0 = s.pin0 := by
  unfold gpio_pin_set_dt setPin; cases env s.idx <;> rfl

@[simp]
lemma setTracked_zero (b : Bool) (s : GpioState) :
    setTracked 0 b s = { s with select0_state := b } := rfl

@[simp]
lemma setTracked_one (b : Bool) (s : GpioState) :
    setTracked 1 b s = { s with select1_state := b } := rfl


/-- C10: `gpio_control_get_select` with a NULL output pointer returns
`-EINVAL` for every line and every state, never writes through the pointer,
issues no hardware operation and changes no state. -/
theorem get_select_null_rejected (line : Nat) (s : GpioState) :
    gpio_control_get_select line true s = (-22, s, none) := by
  unfold gpio_control_get_select
  simp

/-- C5: for every select line other than 0 and 1, `gpio_control_set_select`
and `gpio_control_get_select` fail with `-EINVAL`, issue no hardware
configure/write/read, and leave the whole state unchanged — whether or not
the controller is initialized. -/
theorem invalid_line_rejected (env : Env) (s : GpioState) (st : Bool) (line : Nat)
    (h : 2 ≤ line) :
    gpio_control_set_select env line st s = (-22, s) ∧
    gpio_control_get_select line false s = (-22, s, none) := by
  have h0 : line ≠ 0 := by omega
  have h1 : line ≠ 1 := by omega
  constructor
  · unfold gpio_control_set_select
    split
    · rfl
    · simp [h0, h1]
  · unfold gpio_control_get_select
    split
    · rfl
    · simp [h0, h1]

/-- Witness for `invalid_line_rejected` at line 2, from both an uninitialized
and the claim-independent concrete state. -/
theorem invalid_line_rejected_witness :
    2 ≤ 2 ∧
    (gpio_control_set_select okEnv 2 true initialState = (-22, initialState) ∧
     gpio_control_get_select 2 false initialState = (-22, initialState, none)) :=
  ⟨by omega, invalid_line_rejected okEnv initialState true 2 (by omega)⟩

/-- C6 counterexample: two different failure causes — calling `set` while not
initialized with a valid line, and calling `set` initialized with an invalid
line — return the identical result `-EINVAL = -22`, so the failure cause (and
the offending line) is not identifiable from the returned value alone. -/
theorem error_code_collision :
    gpio_control_set_select okEnv 0 true initialState = (-22, initialState) ∧
    gpio_control_set_select okEnv 7 true readyState = (-22, readyState) := by
  constructor <;> rfl

/-- C6 (amended): `gpio_control_set_select` reports both precondition
failures — controller not initialized, or select line invalid — with the same
single errno `-EINVAL` and an unchanged state; the result value therefore does
not determine the failure cause nor name a line. -/
theorem set_select_einval_shared (env : Env) (line : Nat) (st : Bool)
    (s : GpioState) (h : s.initialized = false ∨ (line ≠ 0 ∧ line ≠ 1)) :
    gpio_control_set_select env line st s = (-22, s) := by
  unfold gpio_control_set_select
  rcases h with h | ⟨h0, h1⟩
  · simp [h]
  · split
    · rfl
    · simp [h0, h1]

/-- Witness for `set_select_einval_shared` on the uninitialized start state. -/
theorem set_select_einval_shared_witness :
    (initialState.initialized = false ∨ ((0 : Nat) ≠ 0 ∧ (0 : Nat) ≠ 1)) ∧
    gpio_control_set_select okEnv 0 true initialState = (-22, initialState) :=
  ⟨Or.inl rfl, set_select_einval_shared okEnv 0 true initialState (Or.inl rfl)⟩

/-- A repeated initialization is a pure no-op. -/
lemma init_noop (env : Env) (s : GpioState) (h : s.initialized = true) :
    gpio_control_init env s = (0, s) := by
  unfold gpio_control_init
  rw [if_pos h]

/-- A successful first initialization ends initialized with both tracked
states LOW. -/
lemma init_success_state (env : Env) (s : GpioState) (h0 : s.initialized = false) :
    (gpio_control_init env s).1 = 0 →
    (gpio_control_init env s).2.initialized = true ∧
    (gpio_control_init env s).2.select0_state = false ∧
    (gpio_control_init env s).2.select1_state = false := by
  unfold gpio_control_init
  rw [if_neg (by simp [h0])]
  dsimp only
  split
  · intro h; simp at h
  split
  · intro h; simp at h
  split
  · intro h; simp at h; omega
  split
  · intro h; simp at h; omega
  split
  · intro h; simp at h; omega
  split
  · intro h; simp at h; omega
  intro _
  simp

/-- C7: initialize is idempotent: if a first `gpio_control_init` from the
uninitialized state succeeds, it leaves both tracked states LOW, and a second
`gpio_control_init` (under any oracle) returns success with the state — trace
included — completely unchanged, i.e. without issuing any hardware
configure, write or readback. -/
theorem init_idempotent (env env2 : Env) (s : GpioState)
    (h0 : s.initialized = false) (h : (gpio_control_init env s).1 = 0) :
    ((gpio_control_init env s).2).select0_state = false ∧
    ((gpio_control_init env s).2).select1_state = false ∧
    gpio_control_init env2 ((gpio_control_init env s).2) =
      (0, (gpio_control_init env s).2) := by
  obtain ⟨hi, h1, h2⟩ := init_success_state env s h0 h
  exact ⟨h1, h2, init_noop env2 _ hi⟩

/-- Witness for `init_idempotent` on the start state with a fault-free
oracle. -/
theorem init_idempotent_witness :
    initialState.initialized = false ∧
    (gpio_control_init okEnv initialState).1 = 0 ∧
    (((gpio_control_init okEnv initialState).2).select0_state = false ∧
     ((gpio_control_init okEnv initialState).2).select1_state = false ∧
     gpio_control_init okEnv ((gpio_control_init okEnv initialState).2) =
       (0, (gpio_control_init okEnv initialState).2)) :=
  ⟨rfl, by decide, init_idempotent okEnv okEnv initialState rfl (by decide)⟩

@[simp]
lemma gpio_pin_set_dt_trace (env : Env) (line : Nat) (level : Bool) (s : GpioState) :
    ((gpio_pin_set_dt env line level s).2).trace = s.trace ++ [HwOp.write line level] := by
  unfold gpio_pin_set_dt setPin
  cases env s.idx <;> simp <;> split <;> rfl

@[simp]
lemma gpio_pin_get_dt_trace (env : Env) (line : Nat) (s : GpioState) :
    ((gpio_pin_get_dt env line s).2).trace = s.trace ++ [HwOp.read line] := by
  unfold gpio_pin_get_dt
  cases env s.idx <;> rfl

@[simp]
lemma verify_gpio_state_trace (env : Env) (line : Nat) (e : Bool) (s : GpioState) :
    ((verify_gpio_state env line e s).2).trace = s.trace ++ [HwOp.read line] := by
  unfold verify_gpio_state
  rcases Int.lt_or_le (gpio_pin_get_dt env line s).1 0 with h | h
  · simp [h]
  · rw [if_neg (by omega)]
    split <;> split <;> simp

/-- The verification step returns 0 or `-EIO`. -/
lemma verify_gpio_state_fst (env : Env) (line : Nat) (e : Bool) (s : GpioState) :
    (verify_gpio_state env line e s).1 = 0 ∨ (verify_gpio_state env line e s).1 = -5 := by
  unfold verify_gpio_state
  dsimp only
  rcases Int.lt_or_le (gpio_pin_get_dt env line s).1 0 with h | h
  · simp [h]
  · rw [if_neg (by omega)]
    by_cases hm : (gpio_pin_get_dt env line s).1 = (if e then (1 : Int) else 0)
    · rw [if_neg (not_not_intro hm)]
      left; rfl
    · rw [if_pos hm]
      right; rfl

/-- C4: for an initialized controller setting a valid line HIGH while the
other line is tracked HIGH, if the pre-emption clear write or its readback
verification fails, the call returns that failure (the write errno, or `-EIO`
for verification), performs no write to the requested line (the trace gains
only the clear write, and possibly its readback), and leaves both lines'
tracked states exactly as they were. -/
theorem preempt_clear_failure_frame (env : Env) (s : GpioState) (line other : Nat)
    (hl : line = 0 ∧ other = 1 ∨ line = 1 ∧ other = 0)
    (hi : s.initialized = true) (hot : trackedOf other s = true)
    (hf : (gpio_pin_set_dt env other false s).1 < 0 ∨
          (verify_gpio_state env other false
             (gpio_pin_set_dt env other false s).2).1 < 0) :
    (gpio_control_set_select env line true s).1 =
      (if (gpio_pin_set_dt env other false s).1 < 0
       then (gpio_pin_set_dt env other false s).1 else -5) ∧
    ((gpio_control_set_select env line true s).2).select0_state = s.select0_state ∧
    ((gpio_control_set_select env line true s).2).select1_state = s.select1_state ∧
    (((gpio_control_set_select env line true s).2).trace =
        s.trace ++ [HwOp.write other false] ∨
     ((gpio_control_set_select env line true s).2).trace =
        s.trace ++ [HwOp.write other false, HwOp.read other]) := by
  rcases hl with ⟨h, ho⟩ | ⟨h, ho⟩ <;> subst h <;> subst ho
  · by_cases hw : (gpio_pin_set_dt env 1 false s).1 < 0
    · simp [gpio_control_set_select, setBody, hi, hot, hw]
    · have hv := hf.resolve_left hw
      have hv5 := (verify_gpio_state_fst env 1 false
        (gpio_pin_set_dt env 1 false s).2).resolve_left (by omega)
      simp [gpio_control_set_select, setBody, hi, hot, hw, hv, hv5]
  · by_cases hw : (gpio_pin_set_dt env 0 false s).1 < 0
    · simp [gpio_control_set_select, setBody, hi, hot, hw]
    · have hv := hf.resolve_left hw
      have hv5 := (verify_gpio_state_fst env 0 false
        (gpio_pin_set_dt env 0 false s).2).resolve_left (by omega)
      simp [gpio_control_set_select, setBody, hi, hot, hw, hv, hv5]

/-- C9: whenever `gpio_control_set_select` is called on a valid line with the
pre-emption condition not holding (the requested state is LOW, or the other
line is tracked LOW), the other line's tracked state and its physical drive
level are left completely unchanged, whether the call succeeds or fails and
under every fault-injection oracle. -/
theorem set_frame_other_line (env : Env) (s : GpioState) (line other : Nat) (st : Bool)
    (hl : line = 0 ∧ other = 1 ∨ line = 1 ∧ other = 0)
    (hno : st = false ∨ trackedOf other s = false) :
    trackedOf other ((gpio_control_set_select env line st s).2) = trackedOf other s ∧
    pinOf other ((gpio_control_set_select env line st s).2) = pinOf other s := by
  rcases hl with ⟨h, ho⟩ | ⟨h, ho⟩ <;> subst h <;> subst ho
  · by_cases hi : s.initialized = false
    · simp [gpio_control_set_select, hi]
    · have hcond : ¬(st = true ∧ trackedOf 1 s = true) := by
        rcases hno with h | h <;> simp [h]
      unfold gpio_control_set_select
      rw [if_neg hi, if_pos rfl]
      unfold setBody
      rw [if_neg hcond]
      unfold setTarget
      dsimp only
      split
      · simp [trackedOf, pinOf]
      · split <;> simp [trackedOf, pinOf]
  · by_cases hi : s.initialized = false
    · simp [gpio_control_set_select, hi]
    · have hcond : ¬(st = true ∧ trackedOf 0 s = true) := by
        rcases hno with h | h <;> simp [h]
      unfold gpio_control_set_select
      rw [if_neg hi, if_neg (by decide : ¬(1 : Nat) = 0), if_pos rfl]
      unfold setBody
      rw [if_neg hcond]
      unfold setTarget
      dsimp only
      split
      · simp [trackedOf, pinOf]
      · split <;> simp [trackedOf, pinOf]

lemma setTarget_tracked_inv (env : Env) (line other : Nat) (state cleared orig : Bool)
    (s : GpioState)
    (hl : line = 0 ∧ other = 1 ∨ line = 1 ∧ other = 0)
    (hA : cleared = true → trackedOf line s = false ∧ trackedOf other s = false)
    (hB : cleared = false →
      (s.select0_state && s.select1_state) = false ∧
      (state = true → trackedOf other s = false)) :
    (((setTarget env line other state cleared orig s).2).select0_state &&
     ((setTarget env line other state cleared orig s).2).select1_state) = false := by
  rcases hl with ⟨h, ho⟩ | ⟨h, ho⟩ <;> subst h <;> subst ho <;> cases cleared
  · obtain ⟨hinv, himp⟩ := hB rfl
    have himp1 : state = true → s.select1_state = false := by
      intro h; simpa [trackedOf] using himp h
    have hso : (state && s.select1_state) = false := by
      cases hst : state
      · rfl
      · simpa using himp1 hst
    unfold setTarget
    dsimp only
    split_ifs <;> simp_all [setTracked]
  · obtain ⟨hl0, hl1⟩ := hA rfl
    simp [trackedOf] at hl0 hl1
    unfold setTarget
    dsimp only
    split_ifs <;> simp_all [setTracked]
  · obtain ⟨hinv, himp⟩ := hB rfl
    have himp0 : state = true → s.select0_state = false := by
      intro h; simpa [trackedOf] using himp h
    have hso : (s.select0_state && state) = false := by
      cases hst : state
      · simp
      · simp [himp0 hst]
    unfold setTarget
    dsimp only
    split_ifs <;> simp_all [setTracked]
  · obtain ⟨hl0, hl1⟩ := hA rfl
    simp [trackedOf] at hl0 hl1
    unfold setTarget
    dsimp only
    split_ifs <;> simp_all [setTracked]

@[simp]
lemma gpio_control_get_select_state (line : Nat) (nl : Bool) (s : GpioState) :
    (gpio_control_get_select line nl s).2.1 = s := by
  unfold gpio_control_get_select
  split_ifs <;> rfl

lemma set_tracked_inv (env : Env) (line : Nat) (st : Bool) (s : GpioState)
    (h : (s.select0_state && s.select1_state) = false) :
    (((gpio_control_set_select env line st s).2).select0_state &&
     ((gpio_control_set_select env line st s).2).select1_state) = false := by
  by_cases hi : s.initialized = false
  · simp [gpio_control_set_select, hi, h]
  · by_cases l0 : line = 0
    · subst l0
      unfold gpio_control_set_select
      rw [if_neg hi, if_pos rfl]
      unfold setBody
      by_cases hc : st = true ∧ trackedOf 1 s = true
      · rw [if_pos hc]
        have hs1 : s.select1_state = true := by simpa [trackedOf] using hc.2
        have hs0 : s.select0_state = false := by
          cases hq : s.select0_state
          · rfl
          · rw [hq, hs1] at h; simp at h
        dsimp only
        split
        · simp [h]
        · split
          · simp [h]
          · apply setTarget_tracked_inv
            · left; exact ⟨rfl, rfl⟩
            · intro _
              exact ⟨by simp [trackedOf, hs0], by simp [trackedOf, setTracked]⟩
            · intro hfalse; simp at hfalse
      · rw [if_neg hc]
        apply setTarget_tracked_inv
        · left; exact ⟨rfl, rfl⟩
        · intro htrue; simp at htrue
        · intro _
          refine ⟨h, fun hst => ?_⟩
          cases hq : trackedOf 1 s
          · rfl
          · exact absurd ⟨hst, hq⟩ hc
    · by_cases l1 : line = 1
      · subst l1
        unfold gpio_control_set_select
        rw [if_neg hi, if_neg l0, if_pos rfl]
        unfold setBody
        by_cases hc : st = true ∧ trackedOf 0 s = true
        · rw [if_pos hc]
          have hs0 : s.select0_state = true := by simpa [trackedOf] using hc.2
          have hs1 : s.select1_state = false := by
            cases hq : s.select1_state
            · rfl
            · rw [hq, hs0] at h; simp at h
          dsimp only
          split
          · simp [h]
          · split
            · simp [h]
            · apply setTarget_tracked_inv
              · right; exact ⟨rfl, rfl⟩
              · intro _
                exact ⟨by simp [trackedOf, setTracked, hs1], by simp [trackedOf, setTracked]⟩
              · intro hfalse; simp at hfalse
        · rw [if_neg hc]
          apply setTarget_tracked_inv
          · right; exact ⟨rfl, rfl⟩
          · intro htrue; simp at htrue
          · intro _
            refine ⟨h, fun hst => ?_⟩
            cases hq : trackedOf 0 s
            · rfl
            · exact absurd ⟨hst, hq⟩ hc
      · unfold gpio_control_set_select
        rw [if_neg hi, if_neg l0, if_neg l1]
        simpa using h

lemma init_tracked_inv (env : Env) (s : GpioState)
    (h : (s.select0_state && s.select1_state) = false) :
    (((gpio_control_init env s).2).select0_state &&
     ((gpio_control_init env s).2).select1_state) = false := by
  unfold gpio_control_init
  dsimp only
  split_ifs <;> simp [h]

lemma toggle_tracked_inv (env : Env) (line : Nat) (s : GpioState)
    (h : (s.select0_state && s.select1_state) = false) :
    (((gpio_control_toggle_select env line s).2).select0_state &&
     ((gpio_control_toggle_select env line s).2).select1_state) = false := by
  unfold gpio_control_toggle_select
  dsimp only
  split
  · simpa using h
  · simp only [gpio_control_get_select_state]
    exact set_tracked_inv env line _ s h

lemma run_tracked_inv (env : Env) (ops : List Op) (s : GpioState)
    (h : (s.select0_state && s.select1_state) = false) :
    ((run env s ops).select0_state && (run env s ops).select1_state) = false := by
  induction ops generalizing s with
  | nil => exact h
  | cons op ops ih =>
    cases op with
    | init => exact ih _ (init_tracked_inv env s h)
    | set line st => exact ih _ (set_tracked_inv env line st s h)
    | toggle line => exact ih _ (toggle_tracked_inv env line s h)

lemma set_ok_consistent (line : Nat) (st : Bool) (s : GpioState)
    (h0 : s.pin0 = s.select0_state) (h1 : s.pin1 = s.select1_state) :
    ((gpio_control_set_select okEnv line st s).2).pin0 =
      ((gpio_control_set_select okEnv line st s).2).select0_state ∧
    ((gpio_control_set_select okEnv line st s).2).pin1 =
      ((gpio_control_set_select okEnv line st s).2).select1_state := by
  by_cases hi : s.initialized = false
  · simp [gpio_control_set_select, hi, h0, h1]
  · by_cases l0 : line = 0
    · subst l0
      cases st <;> cases hq1 : s.select1_state <;>
        simp [gpio_control_set_select, setBody, setTarget, hi, hq1, okEnv,
              gpio_pin_set_dt, gpio_pin_get_dt, verify_gpio_state, setPin,
              pinOf, trackedOf, setTracked, h0, h1]
    · by_cases l1 : line = 1
      · subst l1
        cases st <;> cases hq0 : s.select0_state <;>
          simp [gpio_control_set_select, setBody, setTarget, hi, hq0, okEnv,
                gpio_pin_set_dt, gpio_pin_get_dt, verify_gpio_state, setPin,
                pinOf, trackedOf, setTracked, h0, h1]
      · simp [gpio_control_set_select, hi, l0, l1, h0, h1]

lemma init_ok_consistent (s : GpioState)
    (h0 : s.pin0 = s.select0_state) (h1 : s.pin1 = s.select1_state) :
    ((gpio_control_init okEnv s).2).pin0 =
      ((gpio_control_init okEnv s).2).select0_state ∧
    ((gpio_control_init okEnv s).2).pin1 =
      ((gpio_control_init okEnv s).2).select1_state := by
  by_cases hi : s.initialized = true
  · rw [init_noop okEnv s hi]
    exact ⟨h0, h1⟩
  · simp [gpio_control_init, hi, okEnv, gpio_is_ready_dt, gpio_pin_configure_dt,
          verify_gpio_state, gpio_pin_get_dt, setPin, pinOf]

lemma toggle_ok_consistent (line : Nat) (s : GpioState)
    (h0 : s.pin0 = s.select0_state) (h1 : s.pin1 = s.select1_state) :
    ((gpio_control_toggle_select okEnv line s).2).pin0 =
      ((gpio_control_toggle_select okEnv line s).2).select0_state ∧
    ((gpio_control_toggle_select okEnv line s).2).pin1 =
      ((gpio_control_toggle_select okEnv line s).2).select1_state := by
  unfold gpio_control_toggle_select
  dsimp only
  split
  · simpa using ⟨h0, h1⟩
  · simp only [gpio_control_get_select_state]
    exact set_ok_consistent line _ s h0 h1

lemma run_ok_consistent (ops : List Op) (s : GpioState)
    (h0 : s.pin0 = s.select0_state) (h1 : s.pin1 = s.select1_state) :
    (run okEnv s ops).pin0 = (run okEnv s ops).select0_state ∧
    (run okEnv s ops).pin1 = (run okEnv s ops).select1_state := by
  induction ops generalizing s with
  | nil => exact ⟨h0, h1⟩
  | cons op ops ih =>
    cases op with
    | init =>
      obtain ⟨g0, g1⟩ := init_ok_consistent s h0 h1
      exact ih _ g0 g1
    | set line st =>
      obtain ⟨g0, g1⟩ := set_ok_consistent line st s h0 h1
      exact ih _ g0 g1
    | toggle line =>
      obtain ⟨g0, g1⟩ := toggle_ok_consistent line s h0 h1
      exact ih _ g0 g1

/-- C1 counterexample: from the pristine start state, run `init`, then
`set(0, HIGH)`, then `set(1, HIGH)` with one injected fault: the readback
verification of the target write of `set(1, HIGH)` fails after that write
already drove line1 HIGH.  The rollback then re-drives line0 HIGH, leaving
BOTH physical lines HIGH simultaneously — refuting the physical half of the
claimed invariant under arbitrary write/verification faults. -/
theorem both_pins_high_reachable :
    (run cexEnv initialState [Op.init, Op.set 0 true, Op.set 1 true]).pin0 = true ∧
    (run cexEnv initialState [Op.init, Op.set 0 true, Op.set 1 true]).pin1 = true := by
  constructor <;> rfl

/-- C1 (amended): for every fault-injection oracle and every sequence of
init/set/toggle calls from the start state, the tracked states
`select0_state` and `select1_state` are never both true after any call; and
when every hardware operation succeeds (fault-free oracle), the two physical
lines are also never simultaneously driven HIGH.  (Under arbitrary faults the
physical half fails: see the counterexample.) -/
theorem mutual_exclusion_tracked_and_faultfree :
    (∀ (env : Env) (ops : List Op),
      ((run env initialState ops).select0_state &&
       (run env initialState ops).select1_state) = false) ∧
    (∀ ops : List Op,
      ((run okEnv initialState ops).pin0 &&
       (run okEnv initialState ops).pin1) = false) := by
  constructor
  · intro env ops
    exact run_tracked_inv env ops initialState rfl
  · intro ops
    obtain ⟨g0, g1⟩ := run_ok_consistent ops initialState rfl rfl
    rw [g0, g1]
    exact run_tracked_inv okEnv ops initialState rfl

/-- C2: from an initialized controller tracking line0 HIGH / line1 LOW, with
all hardware writes and verifications succeeding, `set(1, HIGH)` performs
exactly two write sequences in order — clear line0 (write + readback), then
set line1 (write + readback) — returns 0, and ends tracking line0 LOW /
line1 HIGH (physical pins likewise). -/
theorem preemption_two_write_sequences (s : GpioState)
    (hi : s.initialized = true) (h0 : s.select0_state = true)
    (h1 : s.select1_state = false) :
    gpio_control_set_select okEnv 1 true s =
      (0, { s with select0_state := false, select1_state := true,
                   pin0 := false, pin1 := true,
                   trace := s.trace ++ [HwOp.write 0 false, HwOp.read 0,
                                        HwOp.write 1 true, HwOp.read 1],
                   idx := s.idx + 4 }) := by
  simp [gpio_control_set_select, setBody, setTarget, trackedOf, setTracked,
        gpio_pin_set_dt, gpio_pin_get_dt, verify_gpio_state, setPin, pinOf,
        okEnv, hi, h0, h1]

/-- Witness for `preemption_two_write_sequences` on the concrete HIGH/LOW
state. -/
theorem preemption_two_write_sequences_witness :
    highLowState.initialized = true ∧ highLowState.select0_state = true ∧
    highLowState.select1_state = false ∧
    gpio_control_set_select okEnv 1 true highLowState =
      (0, { highLowState with
              select0_state := false, select1_state := true,
              pin0 := false, pin1 := true,
              trace := highLowState.trace ++ [HwOp.write 0 false, HwOp.read 0,
                                              HwOp.write 1 true, HwOp.read 1],
              idx := highLowState.idx + 4 }) :=
  ⟨rfl, rfl, rfl, preemption_two_write_sequences highLowState rfl rfl rfl⟩

/-- C3: from an initialized controller tracking (and physically driving)
line0 HIGH / line1 LOW, if during `set(1, HIGH)` the pre-emption clear of
line0 and its verification succeed but the target hardware write for line1
fails, the rollback write restores line0, the call returns the hardware-write
failure errno, and both tracked and physical state end restored to
line0 HIGH / line1 LOW. -/
theorem rollback_restores_state_on_write_failure (env : Env) (s : GpioState)
    (n : Nat)
    (hi : s.initialized = true) (h0 : s.select0_state = true)
    (h1 : s.select1_state = false) (hp0 : s.pin0 = true) (hp1 : s.pin1 = false)
    (e0 : env s.idx = HwRes.ok) (e1 : env (s.idx + 1) = HwRes.ok)
    (e2 : env (s.idx + 2) = HwRes.err n) (e3 : env (s.idx + 3) = HwRes.ok) :
    gpio_control_set_select env 1 true s =
      (Int.negSucc n,
       { s with trace := s.trace ++ [HwOp.write 0 false, HwOp.read 0,
                                     HwOp.write 1 true, HwOp.write 0 true],
                idx := s.idx + 4 }) := by
  simp [gpio_control_set_select, setBody, setTarget, trackedOf, setTracked,
        gpio_pin_set_dt, gpio_pin_get_dt, verify_gpio_state, setPin, pinOf,
        hi, h0, h1, hp0, hp1, e0, e1, e2, e3]

/-- Witness for `rollback_restores_state_on_write_failure`: the target write
(hardware call 2) is injected to fail with errno -1. -/
theorem rollback_restores_state_on_write_failure_witness :
    highLowState.initialized = true ∧ highLowState.select0_state = true ∧
    highLowState.select1_state = false ∧ highLowState.pin0 = true ∧
    highLowState.pin1 = false ∧
    envOfList [HwRes.ok, HwRes.ok, HwRes.err 0, HwRes.ok] highLowState.idx
      = HwRes.ok ∧
    envOfList [HwRes.ok, HwRes.ok, HwRes.err 0, HwRes.ok] (highLowState.idx + 2)
      = HwRes.err 0 ∧
    gpio_control_set_select (envOfList [HwRes.ok, HwRes.ok, HwRes.err 0, HwRes.ok])
        1 true highLowState =
      (Int.negSucc 0,
       { highLowState with
           trace := highLowState.trace ++ [HwOp.write 0 false, HwOp.read 0,
                                           HwOp.write 1 true, HwOp.write 0 true],
           idx := highLowState.idx + 4 }) :=
  ⟨rfl, rfl, rfl, rfl, rfl, rfl, rfl,
   rollback_restores_state_on_write_failure
     (envOfList [HwRes.ok, HwRes.ok, HwRes.err 0, HwRes.ok]) highLowState 0
     rfl rfl rfl rfl rfl rfl rfl rfl rfl⟩

/-- Witness for `preempt_clear_failure_frame`: `set(0, HIGH)` with line1
tracked HIGH and the pre-emption clear write injected to fail. -/
theorem preempt_clear_failure_frame_witness :
    lowHighState.initialized = true ∧
    trackedOf 1 lowHighState = true ∧
    (gpio_pin_set_dt failFirstEnv 1 false lowHighState).1 < 0 ∧
    ((gpio_control_set_select failFirstEnv 0 true lowHighState).1 =
      (if (gpio_pin_set_dt failFirstEnv 1 false lowHighState).1 < 0
       then (gpio_pin_set_dt failFirstEnv 1 false lowHighState).1 else -5) ∧
     ((gpio_control_set_select failFirstEnv 0 true lowHighState).2).select0_state =
       lowHighState.select0_state ∧
     ((gpio_control_set_select failFirstEnv 0 true lowHighState).2).select1_state =
       lowHighState.select1_state ∧
     (((gpio_control_set_select failFirstEnv 0 true lowHighState).2).trace =
         lowHighState.trace ++ [HwOp.write 1 false] ∨
      ((gpio_control_set_select failFirstEnv 0 true lowHighState).2).trace =
         lowHighState.trace ++ [HwOp.write 1 false, HwOp.read 1])) :=
  ⟨rfl, rfl, by decide,
   preempt_clear_failure_frame failFirstEnv lowHighState 0 1
     (Or.inl ⟨rfl, rfl⟩) rfl rfl (Or.inl (by decide))⟩

/-- C8: toggle is self-inverse on the toggled line's tracked state: from an
initialized controller with line0 tracked LOW and all hardware operations
succeeding, `toggle(0)` succeeds and leaves line0 tracked HIGH, and a second
`toggle(0)` succeeds and restores line0 to LOW. -/
theorem toggle_self_inverse (s : GpioState)
    (hi : s.initialized = true) (h0 : s.select0_state = false) :
    (gpio_control_toggle_select okEnv 0 s).1 = 0 ∧
    ((gpio_control_toggle_select okEnv 0 s).2).select0_state = true ∧
    (gpio_control_toggle_select okEnv 0
      ((gpio_control_toggle_select okEnv 0 s).2)).1 = 0 ∧
    ((gpio_control_toggle_select okEnv 0
      ((gpio_control_toggle_select okEnv 0 s).2)).2).select0_state = false := by
  cases hs1 : s.select1_state <;>
  simp [gpio_control_toggle_select, gpio_control_get_select,
        gpio_control_set_select, setBody, setTarget, trackedOf, setTracked,
        gpio_pin_set_dt, gpio_pin_get_dt, verify_gpio_state, setPin, pinOf,
        okEnv, hi, h0, hs1]

/-- Witness for `toggle_self_inverse` on the initialized LOW/LOW state. -/
theorem toggle_self_inverse_witness :
    readyState.initialized = true ∧ readyState.select0_state = false ∧
    ((gpio_control_toggle_select okEnv 0 readyState).1 = 0 ∧
     ((gpio_control_toggle_select okEnv 0 readyState).2).select0_state = true ∧
     (gpio_control_toggle_select okEnv 0
       ((gpio_control_toggle_select okEnv 0 readyState).2)).1 = 0 ∧
     ((gpio_control_toggle_select okEnv 0
       ((gpio_control_toggle_select okEnv 0 readyState).2)).2).select0_state = false) :=
  ⟨rfl, rfl, toggle_self_inverse readyState rfl rfl⟩

/-- Witness for `set_frame_other_line`: `set(0, HIGH)` with line1 tracked LOW
leaves line1's tracked state and physical pin untouched. -/
theorem set_frame_other_line_witness :
    (trackedOf 1 readyState = false) ∧
    (trackedOf 1 ((gpio_control_set_select okEnv 0 true readyState).2) =
       trackedOf 1 readyState ∧
     pinOf 1 ((gpio_control_set_select okEnv 0 true readyState).2) =
       pinOf 1 readyState) :=
  ⟨rfl, set_frame_other_line okEnv readyState 0 1 true
          (Or.inl ⟨rfl, rfl⟩) (Or.inr rfl)⟩
